import Mathlib

/-!
Verification of the glacier trend-forecasting core of `streamlit_app.py`:
the data-loading step, the polynomial / ARIMA forecast branch, the
threshold-based risk alert branch and the observed/predicted report merge,
embedded shallowly over exact rationals.
-/

namespace Glacier

/-! ## Data loading (lines 122-130)

The source loads a CSV and then drops rows whose `year` or `area_km2`
column is missing (`df.dropna(subset=['year', 'area_km2'])`).  A raw row
is a pair of optional fields; the load keeps exactly the rows where both
fields are present, in input order.  No deduplication and no sort is
performed by the source.  -/

def loadRows (rows : List (Option ℤ × Option ℚ)) : List (ℤ × ℚ) :=
  rows.filterMap fun r =>
    match r with
    | (some y, some v) => some (y, v)
    | _ => none

/-! ## Risk alerts (lines 217-226)

The Alerts branch reads the latest observed area and classifies it with a
hardcoded threshold of 20.0 and a margin of 5:
`if latest_area < threshold: Critical elif latest_area < threshold + 5:
Warning else: Stable`.  -/

inductive RiskLevel
  | Critical
  | Warning
  | Stable
deriving DecidableEq, Repr

/-- The alert classification exactly as the source writes it, with the
source's hardcoded `threshold = 20.0` and margin `5`. -/
def riskLevel (latestArea : ℚ) : RiskLevel :=
  let threshold : ℚ := 20
  if latestArea < threshold then RiskLevel.Critical
  else if latestArea < threshold + 5 then RiskLevel.Warning
  else RiskLevel.Stable

/-- Follows the spec's words: `RiskEvaluator.evaluate` with caller-supplied
thresholds `{critical, warning_margin}`; `level = Critical if latest.value <
thresholds.critical`, `Warning if latest.value < thresholds.critical +
thresholds.warning_margin`, else `Stable`.  Stated separately so the
source's hardcoded rule can be compared against it. -/
def specEvaluate (critical warningMargin latest : ℚ) : RiskLevel :=
  if latest < critical then RiskLevel.Critical
  else if latest < critical + warningMargin then RiskLevel.Warning
  else RiskLevel.Stable

/-- Severity rank for the total order Stable < Warning < Critical. -/
def severity : RiskLevel → ℕ
  | RiskLevel.Stable => 0
  | RiskLevel.Warning => 1
  | RiskLevel.Critical => 2

end Glacier

namespace Glacier

/-- C4: the risk evaluation assigns Critical below `critical`, Warning below
`critical + warning_margin`, else Stable.  The source hardcodes
`critical = 20` and `warning_margin = 5`; at those thresholds its alert
branch coincides with the spec's rule at every latest value. -/
theorem riskLevel_refines_specEvaluate :
    ∀ latest : ℚ, riskLevel latest = specEvaluate 20 5 latest := by
  intro latest
  rfl

/-- C5 (counterexample): on the scenario series the last value is 25.0, and
the alert branch classifies 25.0 as Stable, not Warning: `25 < 20` and
`25 < 20 + 5` are both false. -/
theorem riskLevel_at_25_not_warning :
    riskLevel 25 ≠ RiskLevel.Warning := by
  norm_num [riskLevel]
  decide

/-- C5 (amended): evaluating the risk of the last point of the scenario
series (value 25.0) with thresholds `{critical: 20, warning_margin: 5}`
returns level Stable, since 25 ≥ 20 and 25 is not strictly below 25. -/
theorem riskLevel_at_25_stable :
    riskLevel 25 = RiskLevel.Stable ∧ specEvaluate 20 5 25 = RiskLevel.Stable := by
  norm_num [riskLevel, specEvaluate]

/-- C6: risk severity is monotone as the latest value decreases, for every
fixed thresholds in the spec's rule and in particular for the source's
hardcoded thresholds. -/
theorem riskLevel_monotone (critical warningMargin v₁ v₂ : ℚ) (h : v₂ ≤ v₁) :
    severity (specEvaluate critical warningMargin v₁) ≤
      severity (specEvaluate critical warningMargin v₂) ∧
    severity (riskLevel v₁) ≤ severity (riskLevel v₂) := by
  constructor
  · unfold specEvaluate
    split_ifs <;> simp [severity] <;> linarith
  · simp only [riskLevel]
    split_ifs <;> simp [severity] <;> linarith

/-- Witness for C6 at concrete inputs: thresholds 20/5, values 30 ≥ 10. -/
theorem riskLevel_monotone_witness :
    (10 : ℚ) ≤ 30 ∧
      (severity (specEvaluate 20 5 30) ≤ severity (specEvaluate 20 5 10) ∧
        severity (riskLevel 30) ≤ severity (riskLevel 10)) :=
  ⟨by norm_num, riskLevel_monotone 20 5 30 10 (by norm_num)⟩

/-- C10: the alert branch is a total if/elif/else, so every latest value
receives exactly one of the three levels; both comparisons are strict, so
a value exactly at the critical threshold (20.0) is Warning, not Critical,
and a value exactly at threshold + margin (25.0) is Stable, not Warning. -/
theorem riskLevel_total_strict_boundaries :
    (∀ v : ℚ,
      (riskLevel v = RiskLevel.Critical ∧ riskLevel v ≠ RiskLevel.Warning ∧
          riskLevel v ≠ RiskLevel.Stable) ∨
      (riskLevel v = RiskLevel.Warning ∧ riskLevel v ≠ RiskLevel.Critical ∧
          riskLevel v ≠ RiskLevel.Stable) ∨
      (riskLevel v = RiskLevel.Stable ∧ riskLevel v ≠ RiskLevel.Critical ∧
          riskLevel v ≠ RiskLevel.Warning)) ∧
    riskLevel 20 = RiskLevel.Warning ∧ riskLevel 25 = RiskLevel.Stable := by
  refine ⟨fun v => ?_, by norm_num [riskLevel], by norm_num [riskLevel]⟩
  simp only [riskLevel]
  split_ifs <;> simp

/-- C8 (counterexample): loading the scenario rows
`[(2001, 50.0), (2001, 48.0), (2005, 45.0)]` neither rejects the duplicate
year nor keeps exactly one of the duplicate rows: the load is total (it can
only drop rows with a missing field) and its output contains the year 2001
twice. -/
theorem loadRows_keeps_duplicate_years :
    loadRows [(some 2001, some 50), (some 2001, some 48), (some 2005, some 45)] =
        [(2001, 50), (2001, 48), (2005, 45)] ∧
      ((loadRows [(some 2001, some 50), (some 2001, some 48), (some 2005, some 45)]).filter
          fun p => p.1 = 2001).length = 2 := by
  constructor
  · rfl
  · rfl

/-- C8 (amended): the load keeps every row whose year and value are both
present, in input order — rows with a missing field are dropped, duplicate
years are kept; in particular the scenario input yields exactly two rows
for year 2001. -/
theorem loadRows_keeps_complete_rows (rows : List (Option ℤ × Option ℚ)) (y : ℤ) (v : ℚ)
    (h : (some y, some v) ∈ rows) :
    (y, v) ∈ loadRows rows ∧
      ((loadRows [(some 2001, some 50), (some 2001, some 48), (some 2005, some 45)]).filter
          fun p => p.1 = 2001).length = 2 := by
  refine ⟨?_, rfl⟩
  unfold loadRows
  exact List.mem_filterMap.mpr ⟨(some y, some v), h, rfl⟩

/-- Witness for C8's amended theorem: the first scenario row survives the
load. -/
theorem loadRows_keeps_complete_rows_witness :
    ((some 2001, some (50 : ℚ)) ∈
        [((some 2001 : Option ℤ), some (50 : ℚ)), (some 2001, some 48),
          (some 2005, some 45)]) ∧
      (((2001 : ℤ), (50 : ℚ)) ∈
          loadRows [(some 2001, some 50), (some 2001, some 48), (some 2005, some 45)] ∧
        ((loadRows [(some 2001, some 50), (some 2001, some 48), (some 2005, some 45)]).filter
            fun p => p.1 = 2001).length = 2) :=
  ⟨by decide,
    loadRows_keeps_complete_rows
      [(some 2001, some 50), (some 2001, some 48), (some 2005, some 45)] 2001 50 (by decide)⟩

end Glacier

namespace Glacier

/-! ## Report merge (lines 189-191)

The Prediction branch builds the combined report with
`full_df = pd.concat([df_model[['year', 'area_km2', 'type']], pred_df])`:
the observed rows (labelled `'Observed'`) followed by the predicted rows
(labelled `'Predicted'`), in their existing orders.  `pd.concat` performs
no sort.  -/

inductive RowLabel
  | Observed
  | Predicted
deriving DecidableEq, Repr

structure ReportRow where
  year : ℤ
  value : ℚ
  label : RowLabel
deriving DecidableEq, Repr

/-- The report merge as the source performs it: concatenation of the
labelled observed rows with the labelled predicted rows. -/
def mergeReport (obs pred : List (ℤ × ℚ)) : List ReportRow :=
  obs.map (fun p => ⟨p.1, p.2, RowLabel.Observed⟩) ++
    pred.map (fun p => ⟨p.1, p.2, RowLabel.Predicted⟩)

/-- Rows ordered by year ascending (non-strict, since an observed and a
predicted row may share a year). -/
def yearLE (a b : ReportRow) : Prop := a.year ≤ b.year

instance : DecidableRel yearLE := fun a b => inferInstanceAs (Decidable (a.year ≤ b.year))

end Glacier

namespace Glacier

/-- C7 (counterexample): the merge does not sort by year: merging the
observed series `[(2020, 10)]` with the forecast `[(2010, 5)]` puts year
2020 before year 2010. -/
theorem mergeReport_not_sorted :
    ¬ (mergeReport [(2020, 10)] [(2010, 5)]).Pairwise yearLE := by
  decide

/-- C7 (amended): the merged report is the observed rows followed by the
forecast rows, so an observed row always precedes every forecast row (in
particular for a shared year); the output is sorted by year ascending
whenever the observed series and the forecast sequence are each sorted and
no forecast year is below an observed year — which the source's fixed
forecast years 2025-2050 against observations up to 2023 satisfy — but not
for arbitrary inputs. -/
theorem mergeReport_sorted_observed_first (obs pred : List (ℤ × ℚ))
    (hobs : obs.Pairwise fun a b => a.1 ≤ b.1)
    (hpred : pred.Pairwise fun a b => a.1 ≤ b.1)
    (hcross : ∀ a ∈ obs, ∀ b ∈ pred, a.1 ≤ b.1) :
    (mergeReport obs pred).Pairwise yearLE ∧
      ∀ i j : Fin (mergeReport obs pred).length,
        ((mergeReport obs pred).get i).label = RowLabel.Observed →
        ((mergeReport obs pred).get j).label = RowLabel.Predicted →
        (i : ℕ) < j := by
  constructor
  · unfold mergeReport
    rw [List.pairwise_append]
    refine ⟨?_, ?_, ?_⟩
    · rw [List.pairwise_map]
      exact hobs
    · rw [List.pairwise_map]
      exact hpred
    · intro a ha b hb
      obtain ⟨pa, hpa, rfl⟩ := List.mem_map.mp ha
      obtain ⟨pb, hpb, rfl⟩ := List.mem_map.mp hb
      exact hcross pa hpa pb hpb
  · intro i j hi hj
    have hilt : (i : ℕ) < obs.length := by
      by_contra hle
      push_neg at hle
      have hi2 : (i : ℕ) - obs.length <
          (pred.map fun p => (⟨p.1, p.2, RowLabel.Predicted⟩ : ReportRow)).length := by
        have := i.isLt
        simp only [mergeReport, List.length_append, List.length_map] at this ⊢
        omega
      have : ((mergeReport obs pred).get i).label = RowLabel.Predicted := by
        unfold mergeReport at *
        rw [List.get_eq_getElem, List.getElem_append_right (by simpa using hle)]
        simp
      rw [this] at hi
      exact absurd hi (by decide)
    have hjge : obs.length ≤ (j : ℕ) := by
      by_contra hlt
      push_neg at hlt
      have : ((mergeReport obs pred).get j).label = RowLabel.Observed := by
        unfold mergeReport at *
        rw [List.get_eq_getElem, List.getElem_append_left (by simpa using hlt)]
        simp
      rw [this] at hj
      exact absurd hj (by decide)
    omega

/-- Witness for C7's amended theorem: sorted observed series up to 2020 and
sorted forecasts from 2025. -/
theorem mergeReport_sorted_observed_first_witness :
    (([(2001, 50), (2020, 25)] : List (ℤ × ℚ)).Pairwise fun a b => a.1 ≤ b.1) ∧
      (([(2025, 20), (2030, 18)] : List (ℤ × ℚ)).Pairwise fun a b => a.1 ≤ b.1) ∧
      (∀ a ∈ ([(2001, 50), (2020, 25)] : List (ℤ × ℚ)),
        ∀ b ∈ ([(2025, 20), (2030, 18)] : List (ℤ × ℚ)), a.1 ≤ b.1) ∧
      ((mergeReport [(2001, 50), (2020, 25)] [(2025, 20), (2030, 18)]).Pairwise yearLE ∧
        ∀ i j : Fin (mergeReport [(2001, 50), (2020, 25)] [(2025, 20), (2030, 18)]).length,
          ((mergeReport [(2001, 50), (2020, 25)] [(2025, 20), (2030, 18)]).get i).label =
            RowLabel.Observed →
          ((mergeReport [(2001, 50), (2020, 25)] [(2025, 20), (2030, 18)]).get j).label =
            RowLabel.Predicted →
          (i : ℕ) < j) :=
  ⟨by decide, by decide, by decide,
    mergeReport_sorted_observed_first [(2001, 50), (2020, 25)] [(2025, 20), (2030, 18)]
      (by decide) (by decide) (by decide)⟩

end Glacier

namespace Glacier

/-! ## Prediction branch (lines 174-215)

The Prediction branch fits `PolynomialFeatures(degree=2)` followed by
`LinearRegression` to the (year, area) pairs and predicts at the fixed
future years `np.arange(2025, 2051, 5)`.  `LinearRegression.fit` computes
the least-squares fit; for a series with at least three distinct years the
design on the basis `{1, year, year²}` has full rank and the fitted
coefficients are the unique solution of the 3×3 normal equations, which
the embedding computes exactly over ℚ by Cramer's rule.  When the normal
determinant vanishes (fewer than three distinct years — the
underdetermined case the source never guards, spec §9) the embedding
returns `none`.  -/

def sumPow (pts : List (ℚ × ℚ)) (k : ℕ) : ℚ :=
  (pts.map fun p => p.1 ^ k).sum

def sumPowY (pts : List (ℚ × ℚ)) (k : ℕ) : ℚ :=
  (pts.map fun p => p.1 ^ k * p.2).sum

def det3 (m11 m12 m13 m21 m22 m23 m31 m32 m33 : ℚ) : ℚ :=
  m11 * (m22 * m33 - m23 * m32) - m12 * (m21 * m33 - m23 * m31) +
    m13 * (m21 * m32 - m22 * m31)

/-- Degree-2 least-squares fit: coefficients `(c₀, c₁, c₂)` of
`c₀ + c₁·year + c₂·year²` solving the normal equations, by Cramer's rule. -/
def polyFit (pts : List (ℚ × ℚ)) : Option (ℚ × ℚ × ℚ) :=
  let s0 := sumPow pts 0
  let s1 := sumPow pts 1
  let s2 := sumPow pts 2
  let s3 := sumPow pts 3
  let s4 := sumPow pts 4
  let t0 := sumPowY pts 0
  let t1 := sumPowY pts 1
  let t2 := sumPowY pts 2
  let d := det3 s0 s1 s2 s1 s2 s3 s2 s3 s4
  if d = 0 then none
  else
    some (det3 t0 s1 s2 t1 s2 s3 t2 s3 s4 / d,
      det3 s0 t0 s2 s1 t1 s3 s2 t2 s4 / d,
      det3 s0 s1 t0 s1 s2 t1 s2 s3 t2 / d)

/-- `model.predict` on the transformed feature row of a single year. -/
def polyPredict (c : ℚ × ℚ × ℚ) (t : ℚ) : ℚ :=
  c.1 + c.2.1 * t + c.2.2 * t ^ 2

/-- `np.arange(2025, 2051, 5)`. -/
def futureYears : List ℤ := [2025, 2030, 2035, 2040, 2045, 2050]

/-- The polynomial-regression block of the Prediction branch: fit the
degree-2 model on the series and predict each fixed future year (`none`
per year when the fit is underdetermined). -/
def polyBlock (series : List (ℤ × ℚ)) : List (ℤ × Option ℚ) :=
  let pts := series.map fun p => ((p.1 : ℚ), p.2)
  futureYears.map fun t => (t, (polyFit pts).map fun c => polyPredict c (t : ℚ))

/-- Failure of a model fit, surfaced as a value rather than an exception. -/
inductive FitError
  | tooFewObservations (got need : ℕ)
  | numericalFailure
deriving DecidableEq, Repr

/-- Modelled from the spec: the `statsmodels` `ARIMA(order=(p,d,q)).fit()`
call is external library code not present under `src/`; per the spec it
requires at least `p+d+q+1` observations and fails explicitly on a shorter
series, and on a long-enough series the optimizer either converges to some
forecast or fails to converge.  The optimizer's outcome on a long-enough
series is beyond the spec's description, so it is supplied as the
`optimizer` argument; the short-series failure is the modelled part. -/
def arimaFitForecast (p d q : ℕ) (optimizer : Except FitError (List ℚ))
    (values : List ℚ) : Except FitError (List ℚ) :=
  if values.length < p + d + q + 1 then
    Except.error (FitError.tooFewObservations values.length (p + d + q + 1))
  else optimizer

/-- The ARIMA block of the Prediction branch: fit `ARIMA(order=(1,1,1))` on
the value column, forecast 10 steps, and pair the forecasts with the ten
years after the last observed year; any failure is confined by the
source's `try/except` and reported as a value (the warning). -/
def arimaBranch (optimizer : Except FitError (List ℚ)) (series : List (ℤ × ℚ)) :
    Except FitError (List (ℤ × ℚ)) :=
  match arimaFitForecast 1 1 1 optimizer (series.map Prod.snd) with
  | Except.error e => Except.error e
  | Except.ok fc =>
      let lastYear := (series.getLast?.map Prod.fst).getD 0
      Except.ok (((List.range 10).map fun i => lastYear + 1 + (i : ℤ)).zip fc)

/-- Everything the Prediction page shows: the polynomial block's forecasts
and the ARIMA block's outcome (forecasts, or the caught failure shown as a
warning). -/
structure PredictionView where
  polyForecasts : List (ℤ × Option ℚ)
  arimaOutcome : Except FitError (List (ℤ × ℚ))
deriving Repr

/-- The Prediction branch in source order: the polynomial block runs
unconditionally, then the ARIMA block runs inside `try/except`. -/
def predictionPage (optimizer : Except FitError (List ℚ))
    (series : List (ℤ × ℚ)) : PredictionView :=
  { polyForecasts := polyBlock series
    arimaOutcome := arimaBranch optimizer series }

end Glacier

namespace Glacier

/-- C2: with the default order (1,1,1), the ARIMA fit on a series of fewer
than `p+d+q+1 = 4` observations fails with a `FitError`, whatever the
optimizer would have done, and the Prediction page still returns normally
(the failure is a reported value, never an unhandled exception). -/
theorem arima_short_series_fit_error (optimizer : Except FitError (List ℚ))
    (series : List (ℤ × ℚ)) (h : series.length < 4) :
    (predictionPage optimizer series).arimaOutcome =
      Except.error (FitError.tooFewObservations series.length 4) := by
  have hlen : (series.map Prod.snd).length = series.length := List.length_map _ _
  simp only [predictionPage, arimaBranch, arimaFitForecast, hlen]
  rw [if_pos (by omega)]

/-- Witness for C2: the three-point scenario series is too short for
ARIMA(1,1,1) and yields the explicit failure value. -/
theorem arima_short_series_fit_error_witness :
    ([((2001 : ℤ), (50 : ℚ)), (2010, 40), (2020, 25)].length < 4) ∧
      (predictionPage (Except.ok []) [((2001 : ℤ), (50 : ℚ)), (2010, 40), (2020, 25)]).arimaOutcome =
        Except.error (FitError.tooFewObservations
          [((2001 : ℤ), (50 : ℚ)), (2010, 40), (2020, 25)].length 4) :=
  ⟨by decide,
    arima_short_series_fit_error (Except.ok []) [(2001, 50), (2010, 40), (2020, 25)] (by decide)⟩

/-- C3: the polynomial block is computed before and independently of the
ARIMA `try/except`, so the polynomial forecasts of the Prediction page are
produced and identical whatever the ARIMA optimizer does — in particular
whether it fails or succeeds on the same series. -/
theorem poly_independent_of_arima (optimizer₁ optimizer₂ : Except FitError (List ℚ))
    (series : List (ℤ × ℚ)) :
    (predictionPage optimizer₁ series).polyForecasts = polyBlock series ∧
      (predictionPage optimizer₁ series).polyForecasts =
        (predictionPage optimizer₂ series).polyForecasts :=
  ⟨rfl, rfl⟩

end Glacier

namespace Glacier

/-- Cramer's rule for the first unknown of a 3×3 linear system. -/
theorem cramer3_col1 (m11 m12 m13 m21 m22 m23 m31 m32 m33 r1 r2 r3 z1 z2 z3 : ℚ)
    (h1 : m11 * z1 + m12 * z2 + m13 * z3 = r1)
    (h2 : m21 * z1 + m22 * z2 + m23 * z3 = r2)
    (h3 : m31 * z1 + m32 * z2 + m33 * z3 = r3)
    (hd : det3 m11 m12 m13 m21 m22 m23 m31 m32 m33 ≠ 0) :
    det3 r1 m12 m13 r2 m22 m23 r3 m32 m33 /
      det3 m11 m12 m13 m21 m22 m23 m31 m32 m33 = z1 := by
  rw [div_eq_iff hd]
  unfold det3
  linear_combination (-(m22 * m33 - m23 * m32)) * h1 + (m12 * m33 - m13 * m32) * h2 -
    (m12 * m23 - m13 * m22) * h3

/-- Cramer's rule for the second unknown of a 3×3 linear system. -/
theorem cramer3_col2 (m11 m12 m13 m21 m22 m23 m31 m32 m33 r1 r2 r3 z1 z2 z3 : ℚ)
    (h1 : m11 * z1 + m12 * z2 + m13 * z3 = r1)
    (h2 : m21 * z1 + m22 * z2 + m23 * z3 = r2)
    (h3 : m31 * z1 + m32 * z2 + m33 * z3 = r3)
    (hd : det3 m11 m12 m13 m21 m22 m23 m31 m32 m33 ≠ 0) :
    det3 m11 r1 m13 m21 r2 m23 m31 r3 m33 /
      det3 m11 m12 m13 m21 m22 m23 m31 m32 m33 = z2 := by
  rw [div_eq_iff hd]
  unfold det3
  linear_combination (m21 * m33 - m23 * m31) * h1 - (m11 * m33 - m13 * m31) * h2 +
    (m11 * m23 - m13 * m21) * h3

/-- Cramer's rule for the third unknown of a 3×3 linear system. -/
theorem cramer3_col3 (m11 m12 m13 m21 m22 m23 m31 m32 m33 r1 r2 r3 z1 z2 z3 : ℚ)
    (h1 : m11 * z1 + m12 * z2 + m13 * z3 = r1)
    (h2 : m21 * z1 + m22 * z2 + m23 * z3 = r2)
    (h3 : m31 * z1 + m32 * z2 + m33 * z3 = r3)
    (hd : det3 m11 m12 m13 m21 m22 m23 m31 m32 m33 ≠ 0) :
    det3 m11 m12 r1 m21 m22 r2 m31 m32 r3 /
      det3 m11 m12 m13 m21 m22 m23 m31 m32 m33 = z3 := by
  rw [div_eq_iff hd]
  unfold det3
  linear_combination (-(m21 * m32 - m22 * m31)) * h1 + (m11 * m32 - m12 * m31) * h2 -
    (m11 * m22 - m12 * m21) * h3

/-- The normal determinant of the degree-2 fit on three abscissae is the
square of the Vandermonde product. -/
theorem det3_powerSums (x0 x1 x2 : ℚ) :
    det3 3 (x0 + x1 + x2) (x0 ^ 2 + x1 ^ 2 + x2 ^ 2)
        (x0 + x1 + x2) (x0 ^ 2 + x1 ^ 2 + x2 ^ 2) (x0 ^ 3 + x1 ^ 3 + x2 ^ 3)
        (x0 ^ 2 + x1 ^ 2 + x2 ^ 2) (x0 ^ 3 + x1 ^ 3 + x2 ^ 3)
        (x0 ^ 4 + x1 ^ 4 + x2 ^ 4) =
      ((x1 - x0) * (x2 - x0) * (x2 - x1)) ^ 2 := by
  unfold det3
  ring

end Glacier

namespace Glacier

/-- Through three points with distinct abscissae there is a quadratic. -/
theorem quad_through_three (x0 x1 x2 y0 y1 y2 : ℚ)
    (d01 : x1 - x0 ≠ 0) (d02 : x2 - x0 ≠ 0) (d12 : x2 - x1 ≠ 0) :
    ∃ a b c : ℚ,
      a + b * x0 + c * x0 ^ 2 = y0 ∧
        a + b * x1 + c * x1 ^ 2 = y1 ∧ a + b * x2 + c * x2 ^ 2 = y2 := by
  set c := ((y2 - y1) / (x2 - x1) - (y1 - y0) / (x1 - x0)) / (x2 - x0) with hc
  set b := (y1 - y0) / (x1 - x0) - c * (x0 + x1) with hb
  set a := y0 - b * x0 - c * x0 ^ 2 with ha
  refine ⟨a, b, c, by rw [ha]; ring, ?_, ?_⟩
  · rw [ha, hb, hc]
    field_simp
    ring
  · rw [ha, hb, hc]
    field_simp
    ring

end Glacier

namespace Glacier

/-- C1 (amended): for every valid series of exactly three points with
pairwise-distinct years, the degree-2 least-squares fit computed by the
Prediction branch interpolates: predicting at each observed year returns
exactly the observed value — in particular within 1e-6 of it.  (For four
or more points the least-squares fit need not reproduce the observed
values; see the counterexample.) -/
theorem polyFit_three_interpolates (x0 x1 x2 y0 y1 y2 : ℚ)
    (h01 : x0 ≠ x1) (h02 : x0 ≠ x2) (h12 : x1 ≠ x2) :
    ∃ c : ℚ × ℚ × ℚ,
      polyFit [(x0, y0), (x1, y1), (x2, y2)] = some c ∧
        polyPredict c x0 = y0 ∧ polyPredict c x1 = y1 ∧ polyPredict c x2 = y2 := by
  have d01 : x1 - x0 ≠ 0 := sub_ne_zero.mpr (Ne.symm h01)
  have d02 : x2 - x0 ≠ 0 := sub_ne_zero.mpr (Ne.symm h02)
  have d12 : x2 - x1 ≠ 0 := sub_ne_zero.mpr (Ne.symm h12)
  obtain ⟨a, b, c, hq0, hq1, hq2⟩ := quad_through_three x0 x1 x2 y0 y1 y2 d01 d02 d12
  have hs0 : sumPow [(x0, y0), (x1, y1), (x2, y2)] 0 = 3 := by
    simp [sumPow]
    norm_num
  have hs1 : sumPow [(x0, y0), (x1, y1), (x2, y2)] 1 = x0 + x1 + x2 := by
    simp [sumPow]
    ring
  have hs2 : sumPow [(x0, y0), (x1, y1), (x2, y2)] 2 = x0 ^ 2 + x1 ^ 2 + x2 ^ 2 := by
    simp [sumPow]
    ring
  have hs3 : sumPow [(x0, y0), (x1, y1), (x2, y2)] 3 = x0 ^ 3 + x1 ^ 3 + x2 ^ 3 := by
    simp [sumPow]
    ring
  have hs4 : sumPow [(x0, y0), (x1, y1), (x2, y2)] 4 = x0 ^ 4 + x1 ^ 4 + x2 ^ 4 := by
    simp [sumPow]
    ring
  have ht0 : sumPowY [(x0, y0), (x1, y1), (x2, y2)] 0 = y0 + y1 + y2 := by
    simp [sumPowY]
    ring
  have ht1 : sumPowY [(x0, y0), (x1, y1), (x2, y2)] 1 = x0 * y0 + x1 * y1 + x2 * y2 := by
    simp [sumPowY]
    ring
  have ht2 : sumPowY [(x0, y0), (x1, y1), (x2, y2)] 2 =
      x0 ^ 2 * y0 + x1 ^ 2 * y1 + x2 ^ 2 * y2 := by
    simp [sumPowY]
    ring
  have hd : det3 3 (x0 + x1 + x2) (x0 ^ 2 + x1 ^ 2 + x2 ^ 2)
      (x0 + x1 + x2) (x0 ^ 2 + x1 ^ 2 + x2 ^ 2) (x0 ^ 3 + x1 ^ 3 + x2 ^ 3)
      (x0 ^ 2 + x1 ^ 2 + x2 ^ 2) (x0 ^ 3 + x1 ^ 3 + x2 ^ 3)
      (x0 ^ 4 + x1 ^ 4 + x2 ^ 4) ≠ 0 := by
    rw [det3_powerSums]
    exact pow_ne_zero _ (mul_ne_zero (mul_ne_zero d01 d02) d12)
  have h1 : 3 * a + (x0 + x1 + x2) * b + (x0 ^ 2 + x1 ^ 2 + x2 ^ 2) * c =
      y0 + y1 + y2 := by
    linear_combination hq0 + hq1 + hq2
  have h2 : (x0 + x1 + x2) * a + (x0 ^ 2 + x1 ^ 2 + x2 ^ 2) * b +
      (x0 ^ 3 + x1 ^ 3 + x2 ^ 3) * c = x0 * y0 + x1 * y1 + x2 * y2 := by
    linear_combination x0 * hq0 + x1 * hq1 + x2 * hq2
  have h3 : (x0 ^ 2 + x1 ^ 2 + x2 ^ 2) * a + (x0 ^ 3 + x1 ^ 3 + x2 ^ 3) * b +
      (x0 ^ 4 + x1 ^ 4 + x2 ^ 4) * c =
      x0 ^ 2 * y0 + x1 ^ 2 * y1 + x2 ^ 2 * y2 := by
    linear_combination x0 ^ 2 * hq0 + x1 ^ 2 * hq1 + x2 ^ 2 * hq2
  refine ⟨(a, b, c), ?_, ?_, ?_, ?_⟩
  · simp only [polyFit]
    rw [hs0, hs1, hs2, hs3, hs4, ht0, ht1, ht2]
    rw [if_neg hd]
    have e1 := cramer3_col1 3 (x0 + x1 + x2) (x0 ^ 2 + x1 ^ 2 + x2 ^ 2)
      (x0 + x1 + x2) (x0 ^ 2 + x1 ^ 2 + x2 ^ 2) (x0 ^ 3 + x1 ^ 3 + x2 ^ 3)
      (x0 ^ 2 + x1 ^ 2 + x2 ^ 2) (x0 ^ 3 + x1 ^ 3 + x2 ^ 3) (x0 ^ 4 + x1 ^ 4 + x2 ^ 4)
      (y0 + y1 + y2) (x0 * y0 + x1 * y1 + x2 * y2)
      (x0 ^ 2 * y0 + x1 ^ 2 * y1 + x2 ^ 2 * y2) a b c h1 h2 h3 hd
    have e2 := cramer3_col2 3 (x0 + x1 + x2) (x0 ^ 2 + x1 ^ 2 + x2 ^ 2)
      (x0 + x1 + x2) (x0 ^ 2 + x1 ^ 2 + x2 ^ 2) (x0 ^ 3 + x1 ^ 3 + x2 ^ 3)
      (x0 ^ 2 + x1 ^ 2 + x2 ^ 2) (x0 ^ 3 + x1 ^ 3 + x2 ^ 3) (x0 ^ 4 + x1 ^ 4 + x2 ^ 4)
      (y0 + y1 + y2) (x0 * y0 + x1 * y1 + x2 * y2)
      (x0 ^ 2 * y0 + x1 ^ 2 * y1 + x2 ^ 2 * y2) a b c h1 h2 h3 hd
    have e3 := cramer3_col3 3 (x0 + x1 + x2) (x0 ^ 2 + x1 ^ 2 + x2 ^ 2)
      (x0 + x1 + x2) (x0 ^ 2 + x1 ^ 2 + x2 ^ 2) (x0 ^ 3 + x1 ^ 3 + x2 ^ 3)
      (x0 ^ 2 + x1 ^ 2 + x2 ^ 2) (x0 ^ 3 + x1 ^ 3 + x2 ^ 3) (x0 ^ 4 + x1 ^ 4 + x2 ^ 4)
      (y0 + y1 + y2) (x0 * y0 + x1 * y1 + x2 * y2)
      (x0 ^ 2 * y0 + x1 ^ 2 * y1 + x2 ^ 2 * y2) a b c h1 h2 h3 hd
    rw [e1, e2, e3]
  · simp only [polyPredict]
    linear_combination hq0
  · simp only [polyPredict]
    linear_combination hq1
  · simp only [polyPredict]
    linear_combination hq2

end Glacier

namespace Glacier

/-- Witness for C1's amended theorem: the scenario series
`[(2001, 50.0), (2010, 40.0), (2020, 25.0)]` has three distinct years, so
the fitted degree-2 model reproduces all three observed values exactly —
in particular predicting at 2020 returns 25.0. -/
theorem polyFit_three_interpolates_witness :
    ((2001 : ℚ) ≠ 2010 ∧ (2001 : ℚ) ≠ 2020 ∧ (2010 : ℚ) ≠ 2020) ∧
      ∃ c : ℚ × ℚ × ℚ,
        polyFit [((2001 : ℚ), (50 : ℚ)), (2010, 40), (2020, 25)] = some c ∧
          polyPredict c 2001 = 50 ∧ polyPredict c 2010 = 40 ∧ polyPredict c 2020 = 25 :=
  ⟨⟨by norm_num, by norm_num, by norm_num⟩,
    polyFit_three_interpolates 2001 2010 2020 50 40 25
      (by norm_num) (by norm_num) (by norm_num)⟩

/-- C1 (counterexample): the claim fails for a valid series of four points.
On `[(1, 0), (2, 0), (3, 0), (4, 1)]` — distinct years, non-negative
values — the degree-2 least-squares fit is `3/4 - (19/20)·t + (1/4)·t²`,
and predicting at the observed year 4 returns 19/20, which differs from
the observed value 1 by 1/20, far beyond a 1e-6 tolerance. -/
theorem polyFit_four_points_not_interpolating :
    polyFit [((1 : ℚ), (0 : ℚ)), (2, 0), (3, 0), (4, 1)] =
        some (3 / 4, -(19 / 20), 1 / 4) ∧
      polyPredict (3 / 4, -(19 / 20), 1 / 4) 4 = 19 / 20 ∧
      |(19 / 20 : ℚ) - 1| > 1 / 1000000 := by
  refine ⟨?_, by norm_num [polyPredict], ?_⟩
  swap
  · rw [show (19 / 20 : ℚ) - 1 = -(1 / 20) by norm_num, abs_neg,
      abs_of_nonneg (by norm_num : (0 : ℚ) ≤ 1 / 20)]
    norm_num
  norm_num [polyFit, sumPow, sumPowY, det3]

end Glacier

namespace Glacier

/-- Modelled from the spec: the `LogLinear` model is described by the spec
but absent from `src/streamlit_app.py` (it appears only in sibling
variants of the dashboard).  Per the spec it clips the values to a minimum
of 1.0 before taking the natural log, fits a simple linear regression in
log-space (slope and intercept by least squares over the year/log-value
pairs), forecasts by `exp(linear_prediction)`, and clips the result to a
minimum of 0.0. -/
noncomputable def logLinearForecast (series : List (ℤ × ℚ)) (t : ℤ) : ℝ :=
  let pts : List (ℝ × ℝ) := series.map fun p => ((p.1 : ℝ), Real.log (max 1 (p.2 : ℝ)))
  let n : ℝ := pts.length
  let sx := (pts.map Prod.fst).sum
  let sy := (pts.map Prod.snd).sum
  let sxy := (pts.map fun p => p.1 * p.2).sum
  let sxx := (pts.map fun p => p.1 ^ 2).sum
  let slope := (n * sxy - sx * sy) / (n * sxx - sx ^ 2)
  let intercept := (sy - slope * sx) / n
  max 0 (Real.exp (intercept + slope * (t : ℝ)))

end Glacier

namespace Glacier

/-- C9: every LogLinear forecast is non-negative, for every input series
(however small or negative its values and slopes) and every forecast year:
the log is only ever taken of values clipped to at least 1, and the
exponentiated prediction is clipped to a minimum of 0. -/
theorem logLinearForecast_nonneg (series : List (ℤ × ℚ)) (t : ℤ) :
    0 ≤ logLinearForecast series t := by
  simp only [logLinearForecast]
  exact le_max_left 0 _

end Glacier
